import Mathlib

/-!
Verification development for the traKmeter repository.

Two components are embedded here:

* the Dither unit (Source/common/audio/dither.h).  The repository only
  contains the class declaration; the bodies of the constructor,
  initialise and dither are modelled from the spec (sections 3, 4.1 of
  spec.md), which gives the algorithm step by step.  The field names
  follow the header.

* the meter segment widget (Source/common/widgets/generic_meter_segment.cpp),
  whose level and threshold logic is embedded directly from the source.
  Floating point values are modelled as exact rationals; GUI calls
  (repaint) have no observable effect on the embedded state and are
  dropped.
-/

namespace TraKmeter

/-- Error raised by configuration, from spec section 7: InvalidConfiguration
is raised by configure when numberOfBits is non-positive. -/
inductive DitherError where
  | InvalidConfiguration
  deriving DecidableEq

/-- Modelled from the spec: the spec calls for two linear-congruential (or
equivalent) generator states; we fix a standard linear-congruential update
with modulus 2 to the 31. -/
def lcgModulus : Int := 2147483648

/-- Modelled from the spec: one linear-congruential update of an RNG state. -/
def lcgNext (s : Int) : Int := (1103515245 * s + 12345) % lcgModulus

/-- Modelled from the spec: each generator state yields a uniform deviate in
the interval from -1 inclusive to 1 exclusive. -/
def uniformDeviate (s : Int) : ℚ := 2 * (s : ℚ) / (lcgModulus : ℚ) - 1

/-- The Dither engine state.  Field names and order follow the private
section of Source/common/audio/dither.h. -/
structure Dither where
  nRandomNumber_1 : Int
  nRandomNumber_2 : Int
  dErrorFeedback_1 : ℚ
  dErrorFeedback_2 : ℚ
  dDcOffset : ℚ
  dDitherAmplitude : ℚ
  dNoiseShaping : ℚ
  dWordLength : ℚ
  dWordLengthInverted : ℚ
  deriving DecidableEq

/-- Modelled from the spec: the body of Dither::initialise is not in the
repository.  Per spec section 4.1, configure fails with InvalidConfiguration
exactly when numberOfBits is non-positive; otherwise it recomputes the word
length scale, the quantization step (quantumInverse, 1 over 2 to the power
numberOfBits minus 1, stored as dWordLengthInverted), the dither amplitude
(peak TPDF amplitude scaled so the injected noise spans one quantization
step peak to peak) and the DC offset correction (compensating the
statistical bias of the two deviates).  Following the recommendation of
spec section 9 the error feedback history is reset, while the RNG states
are left running (spec section 3: RNG states are never reset implicitly). -/
def Dither.initialise (s : Dither) (number_of_bits : Int) (noise_shaping : ℚ) :
    Except DitherError Dither :=
  if number_of_bits ≤ 0 then
    .error .InvalidConfiguration
  else
    let scale : ℚ := 2 ^ (number_of_bits - 1).toNat
    let quantum : ℚ := 1 / scale
    let amplitude : ℚ := quantum / 4
    .ok { s with
          dErrorFeedback_1 := 0
          dErrorFeedback_2 := 0
          dNoiseShaping := noise_shaping
          dWordLength := scale
          dWordLengthInverted := quantum
          dDitherAmplitude := amplitude
          dDcOffset := 2 * amplitude / (lcgModulus : ℚ) }

/-- Default value of the noise_shaping parameter, declared in
Source/common/audio/dither.h on both the constructor and initialise. -/
def Dither.noiseShapingDefault : ℚ := 1 / 2

/-- Modelled from the spec: the constructor builds a fresh engine (zeroed
RNG seeds and feedback history) and configures it. -/
def Dither.construct (number_of_bits : Int) (noise_shaping : ℚ) :
    Except DitherError Dither :=
  Dither.initialise ⟨0, 0, 0, 0, 0, 0, 0, 0, 0⟩ number_of_bits noise_shaping

/-- The call of initialise with the defaulted noise_shaping parameter
omitted, as declared in the header. -/
def Dither.initialiseDefault (s : Dither) (number_of_bits : Int) :
    Except DitherError Dither :=
  s.initialise number_of_bits Dither.noiseShapingDefault

/-- The call of the constructor with the defaulted noise_shaping parameter
omitted, as declared in the header. -/
def Dither.constructDefault (number_of_bits : Int) : Except DitherError Dither :=
  Dither.construct number_of_bits Dither.noiseShapingDefault

/-- Modelled from the spec: step 1 of process, the noise-shaped input
before dither is added. -/
def Dither.noiseShapedOf (s : Dither) (input : ℚ) : ℚ :=
  input + s.dNoiseShaping * (2 * s.dErrorFeedback_1 - s.dErrorFeedback_2)

/-- Modelled from the spec: step 2 of process, the TPDF deviate formed from
two freshly updated uniform deviates, scaled by the dither amplitude and
corrected by the DC offset. -/
def Dither.tpdfDeviate (s : Dither) (r1 r2 : Int) : ℚ :=
  s.dDitherAmplitude * (uniformDeviate r1 + uniformDeviate r2) + s.dDcOffset

/-- Modelled from the spec: the value of shapedInput after steps 1 to 3 of
process (step 3 adds the dither deviate to shapedInput). -/
def Dither.shapedInputOf (s : Dither) (input : ℚ) : ℚ :=
  s.noiseShapedOf input +
    s.tpdfDeviate (lcgNext s.nRandomNumber_1) (lcgNext s.nRandomNumber_2)

/-- Modelled from the spec: the body of Dither::dither is not in the
repository.  Per spec section 4.1, process updates both RNG states
(update then extract), noise-shapes the input, adds the TPDF dither
deviate, quantizes to the configured word length by rounding to the
nearest representable level, records the quantization error in the sliding
two-sample feedback history and returns the quantized result. -/
def Dither.dither (s : Dither) (input : ℚ) : ℚ × Dither :=
  let shapedInput := s.shapedInputOf input
  let quantizedResult := (round (shapedInput * s.dWordLength) : ℚ) * s.dWordLengthInverted
  (quantizedResult,
   { s with
     nRandomNumber_1 := lcgNext s.nRandomNumber_1
     nRandomNumber_2 := lcgNext s.nRandomNumber_2
     dErrorFeedback_2 := s.dErrorFeedback_1
     dErrorFeedback_1 := quantizedResult - shapedInput })

/-- The output sequence obtained by feeding a list of samples through the
engine one by one. -/
def Dither.run (s : Dither) : List ℚ → List ℚ
  | [] => []
  | x :: xs => (s.dither x).1 :: (s.dither x).2.run xs

/-- The engine state after feeding a list of samples through it. -/
def Dither.runState (s : Dither) : List ℚ → Dither
  | [] => s
  | x :: xs => (s.dither x).2.runState xs

/-- Overwrite the two RNG states with given seeds. -/
def Dither.reseed (s : Dither) (seed1 seed2 : Int) : Dither :=
  { s with nRandomNumber_1 := seed1, nRandomNumber_2 := seed2 }

/-- The output sequence obtained when the RNG is reseeded identically
before each call, as in the permutation test of spec section 8. -/
def Dither.runReseeded (s : Dither) (seed1 seed2 : Int) : List ℚ → List ℚ
  | [] => []
  | x :: xs =>
    ((s.reseed seed1 seed2).dither x).1 ::
      ((s.reseed seed1 seed2).dither x).2.runReseeded seed1 seed2 xs

/-- Equality of everything a single process call reads apart from the
error feedback history: the RNG states and the configuration fields. -/
def Dither.agreeExceptFeedback (s t : Dither) : Prop :=
  s.nRandomNumber_1 = t.nRandomNumber_1 ∧
  s.nRandomNumber_2 = t.nRandomNumber_2 ∧
  s.dDcOffset = t.dDcOffset ∧
  s.dDitherAmplitude = t.dDitherAmplitude ∧
  s.dNoiseShaping = t.dNoiseShaping ∧
  s.dWordLength = t.dWordLength ∧
  s.dWordLengthInverted = t.dWordLengthInverted

/-- Equality of the configuration fields alone (RNG and feedback free). -/
def Dither.sameNoiseConfig (s t : Dither) : Prop :=
  s.dDcOffset = t.dDcOffset ∧
  s.dDitherAmplitude = t.dDitherAmplitude ∧
  s.dNoiseShaping = t.dNoiseShaping ∧
  s.dWordLength = t.dWordLength ∧
  s.dWordLengthInverted = t.dWordLengthInverted

/-- The meter segment state, from generic_meter_segment.cpp.  The hue and
peak colour only feed the paint routine and are omitted; the remaining
fields are those read or written by setThresholds and setLevels. -/
structure GenericMeterSegment where
  lowerThreshold : ℚ
  thresholdRange : ℚ
  upperThreshold : ℚ
  hasHighestLevel : Bool
  fBrightness : ℚ
  fBrightnessOutline : ℚ
  lightPeakMarker : Bool
  deriving DecidableEq

/-- GenericMeterSegment::setThresholds: stores the lower threshold and the
range, derives the upper threshold as their sum, hides the peak marker,
stores the topmost flag and returns the upper threshold. -/
def GenericMeterSegment.setThresholds (s : GenericMeterSegment)
    (fLowerThreshold fDisplayRange : ℚ) (bHasHighestLevel : Bool) :
    ℚ × GenericMeterSegment :=
  (fLowerThreshold + fDisplayRange,
   { s with
     lowerThreshold := fLowerThreshold
     thresholdRange := fDisplayRange
     upperThreshold := fLowerThreshold + fDisplayRange
     lightPeakMarker := false
     hasHighestLevel := bHasHighestLevel })

/-- GenericMeterSegment::setLevels: the piecewise brightness and peak
marker update, translated branch for branch from the source.  The final
repaint call only redraws the widget and is dropped. -/
def GenericMeterSegment.setLevels (s : GenericMeterSegment)
    (normalLevel discreteLevel normalLevelPeak discreteLevelPeak : ℚ) :
    GenericMeterSegment :=
  let brightnessPair : ℚ × ℚ :=
    if normalLevel ≥ s.upperThreshold then
      (97 / 100, 90 / 100)
    else if discreteLevel ≥ s.lowerThreshold ∧ discreteLevel < s.upperThreshold then
      (97 / 100, 90 / 100)
    else if normalLevel < s.lowerThreshold then
      (25 / 100, 30 / 100)
    else
      let raw := (normalLevel - s.lowerThreshold) / s.thresholdRange
      (raw * (72 / 100) + 25 / 100, raw * (60 / 100) + 30 / 100)
  let marker : Bool :=
    if s.hasHighestLevel then
      if normalLevelPeak ≥ s.lowerThreshold then true
      else if discreteLevelPeak ≥ s.lowerThreshold then true
      else false
    else
      if normalLevelPeak ≥ s.lowerThreshold ∧ normalLevelPeak < s.upperThreshold then true
      else if discreteLevelPeak ≥ s.lowerThreshold ∧ discreteLevelPeak < s.upperThreshold then true
      else false
  { s with
    fBrightness := brightnessPair.1
    fBrightnessOutline := brightnessPair.2
    lightPeakMarker := marker }

/-- GenericMeterSegment::setNormalLevels: forwards to setLevels with the
discrete levels pinned to -144. -/
def GenericMeterSegment.setNormalLevels (s : GenericMeterSegment)
    (normalLevel normalLevelPeak : ℚ) : GenericMeterSegment :=
  s.setLevels normalLevel (-144) normalLevelPeak (-144)

/-- GenericMeterSegment::setDiscreteLevels: forwards to setLevels with the
normal levels pinned to -144. -/
def GenericMeterSegment.setDiscreteLevels (s : GenericMeterSegment)
    (discreteLevel discreteLevelPeak : ℚ) : GenericMeterSegment :=
  s.setLevels (-144) discreteLevel (-144) discreteLevelPeak

/-- The GenericMeterSegment constructor: initialises the thresholds,
zeroes the brightness fields and draws once with all levels at -144. -/
def GenericMeterSegment.construct (fLowerThreshold fDisplayRange : ℚ)
    (bHasHighestLevel : Bool) : GenericMeterSegment :=
  let s1 := ((⟨0, 0, 0, false, 0, 0, false⟩ : GenericMeterSegment).setThresholds
    fLowerThreshold fDisplayRange bHasHighestLevel).2
  let s2 := { s1 with fBrightness := 0, fBrightnessOutline := 0 }
  s2.setLevels (-144) (-144) (-144) (-144)

/-- States of the meter segment reachable through its public interface:
every C++ instance passes through the constructor and is then only
modified by the threshold and level setters. -/
inductive GenericMeterSegment.Reachable : GenericMeterSegment → Prop
  | construct (l r : ℚ) (b : Bool) :
      Reachable (GenericMeterSegment.construct l r b)
  | setThresholds (s : GenericMeterSegment) (l r : ℚ) (b : Bool) :
      Reachable s → Reachable (s.setThresholds l r b).2
  | setLevels (s : GenericMeterSegment) (a b c d : ℚ) :
      Reachable s → Reachable (s.setLevels a b c d)
  | setNormalLevels (s : GenericMeterSegment) (a b : ℚ) :
      Reachable s → Reachable (s.setNormalLevels a b)
  | setDiscreteLevels (s : GenericMeterSegment) (a b : ℚ) :
      Reachable s → Reachable (s.setDiscreteLevels a b)

deriving instance DecidableEq for Except

/-- The fresh (all zero) engine state used by concrete instantiations. -/
def ditherZero : Dither := ⟨0, 0, 0, 0, 0, 0, 0, 0, 0⟩

/-- The engine state produced by configuring a fresh engine with one bit
and the default noise shaping. -/
def ditherOneBit : Dither := ⟨0, 0, 0, 0, 1 / 4294967296, 1 / 4, 1 / 2, 1, 1⟩

/-- A one bit engine with noise shaping disabled. -/
def ditherNoShaping : Dither := ⟨0, 0, 0, 0, 1 / 4294967296, 1 / 4, 0, 1, 1⟩

/-- The same configuration as ditherNoShaping but with a different error
feedback history. -/
def ditherNoShapingFb : Dither := ⟨0, 0, 3, 5, 1 / 4294967296, 1 / 4, 0, 1, 1⟩

/-- A concrete meter segment with thresholds 0 and 1. -/
def segA : GenericMeterSegment := ⟨0, 1, 1, false, 0, 0, false⟩

/-- A segment with the same thresholds as segA but different brightness
and peak marker state. -/
def segB : GenericMeterSegment := ⟨0, 1, 1, false, 1 / 2, 1 / 3, true⟩

/-! ## Theorems -/

/-- C1: initialise (and the constructor, which forwards to it) raises
InvalidConfiguration exactly when numberOfBits is non-positive, and
succeeds on every positive numberOfBits. -/
theorem initialise_invalid_configuration_iff (s : Dither) (bits : Int) (ns : ℚ) :
    (s.initialise bits ns = .error .InvalidConfiguration ↔ bits ≤ 0) ∧
    (Dither.construct bits ns = .error .InvalidConfiguration ↔ bits ≤ 0) ∧
    (0 < bits →
      (∃ t, s.initialise bits ns = .ok t) ∧ ∃ t, Dither.construct bits ns = .ok t) := by
  unfold Dither.construct
  by_cases hb : bits ≤ 0
  · simp [Dither.initialise, hb]
  · simp [Dither.initialise, hb]

/-- Witness for C1: with one bit configure succeeds, with zero bits it
raises InvalidConfiguration. -/
theorem initialise_invalid_configuration_iff_witness :
    ditherZero.initialise 0 (1 / 2) = .error .InvalidConfiguration ∧
    ∃ t, ditherZero.initialise 1 (1 / 2) = .ok t :=
  ⟨(initialise_invalid_configuration_iff ditherZero 0 (1 / 2)).1.mpr (by decide),
   ((initialise_invalid_configuration_iff ditherZero 1 (1 / 2)).2.2 (by decide)).1⟩

/-- C3: two freshly constructed engines configured with identical
arguments (hence identical RNG seed state) produce identical output
sequences on identical inputs. -/
theorem construct_run_deterministic (bits : Int) (ns : ℚ) (s1 s2 : Dither)
    (inputs : List ℚ)
    (h1 : Dither.construct bits ns = .ok s1)
    (h2 : Dither.construct bits ns = .ok s2) :
    s1.run inputs = s2.run inputs := by
  rw [h1] at h2
  cases h2
  rfl

/-- Witness for C3: two engines constructed with one bit and default
shaping agree on the input sequence with the single sample zero. -/
theorem construct_run_deterministic_witness :
    ditherOneBit.run [0] = ditherOneBit.run [0] :=
  construct_run_deterministic 1 (1 / 2) ditherOneBit ditherOneBit [0]
    (by simp [Dither.construct, Dither.initialise, ditherOneBit, lcgModulus]; norm_num)
    (by simp [Dither.construct, Dither.initialise, ditherOneBit, lcgModulus]; norm_num)

/-- C5: the noise shaping parameter of both the constructor and
initialise defaults to one half, and a defaulted call stores one half as
the noise shaping coefficient. -/
theorem noiseShaping_default_half (s : Dither) (bits : Int) (h : 0 < bits) :
    Dither.noiseShapingDefault = 1 / 2 ∧
    s.initialiseDefault bits = s.initialise bits (1 / 2) ∧
    Dither.constructDefault bits = Dither.construct bits (1 / 2) ∧
    ∃ t, s.initialiseDefault bits = .ok t ∧ t.dNoiseShaping = 1 / 2 := by
  refine ⟨rfl, rfl, rfl, ?_⟩
  have hb : ¬ bits ≤ 0 := by omega
  simp [Dither.initialiseDefault, Dither.initialise, hb, Dither.noiseShapingDefault]

/-- Witness for C5 at one bit. -/
theorem noiseShaping_default_half_witness :
    Dither.noiseShapingDefault = 1 / 2 ∧
    ditherZero.initialiseDefault 1 = ditherZero.initialise 1 (1 / 2) ∧
    Dither.constructDefault 1 = Dither.construct 1 (1 / 2) ∧
    ∃ t, ditherZero.initialiseDefault 1 = .ok t ∧ t.dNoiseShaping = 1 / 2 :=
  noiseShaping_default_half ditherZero 1 (by decide)

/-- C6: configuring twice with the same arguments leaves the derived
dither amplitude and DC offset correction equal to their values after a
single configuration. -/
theorem initialise_idempotent_derived (s s1 s2 : Dither) (bits : Int) (ns : ℚ)
    (h1 : s.initialise bits ns = .ok s1) (h2 : s1.initialise bits ns = .ok s2) :
    s2.dDitherAmplitude = s1.dDitherAmplitude ∧ s2.dDcOffset = s1.dDcOffset := by
  by_cases hb : bits ≤ 0
  · simp [Dither.initialise, hb] at h1
  · simp [Dither.initialise, hb] at h1 h2
    subst h1
    subst h2
    exact ⟨rfl, rfl⟩

/-- Witness for C6 at one bit. -/
theorem initialise_idempotent_derived_witness :
    ditherOneBit.dDitherAmplitude = ditherOneBit.dDitherAmplitude ∧
    ditherOneBit.dDcOffset = ditherOneBit.dDcOffset :=
  initialise_idempotent_derived ditherZero ditherOneBit ditherOneBit 1 (1 / 2)
    (by simp [Dither.initialise, ditherZero, ditherOneBit, lcgModulus]; norm_num)
    (by simp [Dither.initialise, ditherOneBit, lcgModulus]; norm_num)

/-- C8: setThresholds returns the sum of the lower threshold and the
display range, stores it as the upper threshold, and unconditionally
hides the peak marker. -/
theorem setThresholds_upper_sum_hides_marker (s : GenericMeterSegment)
    (l r : ℚ) (b : Bool) :
    (s.setThresholds l r b).1 = l + r ∧
    (s.setThresholds l r b).2.upperThreshold = l + r ∧
    (s.setThresholds l r b).2.lightPeakMarker = false :=
  ⟨rfl, rfl, rfl⟩

/-- C10: setNormalLevels and setDiscreteLevels are exactly setLevels with
the other pair of levels pinned to -144. -/
theorem normal_discrete_levels_forward (s : GenericMeterSegment) (a b c d : ℚ) :
    s.setNormalLevels a b = s.setLevels a (-144) b (-144) ∧
    s.setDiscreteLevels c d = s.setLevels (-144) c (-144) d :=
  ⟨rfl, rfl⟩

/-- Helper: a successful initialise leaves a positive word length scale
whose product with the stored quantization step is one. -/
theorem initialise_ok_wordLength (s t : Dither) (bits : Int) (ns : ℚ)
    (h : s.initialise bits ns = .ok t) :
    0 < t.dWordLength ∧ t.dWordLength * t.dWordLengthInverted = 1 := by
  by_cases hb : bits ≤ 0
  · simp [Dither.initialise, hb] at h
  · simp [Dither.initialise, hb] at h
    subst h
    constructor
    · positivity
    · exact mul_inv_cancel₀ (by positivity)

/-- Helper: a process call never changes the configured word length. -/
theorem dither_preserves_wordLength (s : Dither) (x : ℚ) :
    (s.dither x).2.dWordLength = s.dWordLength ∧
    (s.dither x).2.dWordLengthInverted = s.dWordLengthInverted :=
  ⟨rfl, rfl⟩

/-- Helper: a sequence of process calls never changes the configured word
length. -/
theorem runState_preserves_wordLength (s : Dither) (l : List ℚ) :
    (s.runState l).dWordLength = s.dWordLength ∧
    (s.runState l).dWordLengthInverted = s.dWordLengthInverted := by
  induction l generalizing s with
  | nil => exact ⟨rfl, rfl⟩
  | cons x xs ih => exact ih (s.dither x).2

/-- Helper: on any state whose word length scale is positive and inverse
consistent, the rounding error of a single process call is at most half a
quantization step. -/
theorem quantize_error_bound (s : Dither) (x : ℚ)
    (hpos : 0 < s.dWordLength) (hinv : s.dWordLength * s.dWordLengthInverted = 1) :
    |(s.dither x).1 - s.shapedInputOf x| ≤ s.dWordLengthInverted / 2 := by
  have hW : s.dWordLength ≠ 0 := ne_of_gt hpos
  have hinvpos : 0 ≤ s.dWordLengthInverted := by
    have h : s.dWordLengthInverted = 1 / s.dWordLength := by
      field_simp
      linarith [hinv]
    rw [h]
    positivity
  have h1 : (s.dither x).1 =
      (round (s.shapedInputOf x * s.dWordLength) : ℚ) * s.dWordLengthInverted := rfl
  have key : (s.dither x).1 - s.shapedInputOf x =
      ((round (s.shapedInputOf x * s.dWordLength) : ℚ) -
        s.shapedInputOf x * s.dWordLength) * s.dWordLengthInverted := by
    rw [h1, sub_mul, mul_assoc, hinv, mul_one]
  rw [key, abs_mul, abs_of_nonneg hinvpos]
  have hr : |(round (s.shapedInputOf x * s.dWordLength) : ℚ) -
      s.shapedInputOf x * s.dWordLength| ≤ 1 / 2 := by
    rw [abs_sub_comm]
    exact abs_sub_round (s.shapedInputOf x * s.dWordLength)
  calc |(round (s.shapedInputOf x * s.dWordLength) : ℚ) -
      s.shapedInputOf x * s.dWordLength| * s.dWordLengthInverted
      ≤ 1 / 2 * s.dWordLengthInverted := mul_le_mul_of_nonneg_right hr hinvpos
    _ = s.dWordLengthInverted / 2 := by ring

/-- C2: on any engine obtained from a successful configure call followed by
any sequence of process calls, the quantization error of the next process
call (quantized result minus the dithered shaped input it rounds) is
bounded by half the quantization step stored for the configured word
length. -/
theorem process_error_bound (s0 s1 : Dither) (bits : Int) (ns : ℚ)
    (inputs : List ℚ) (input : ℚ)
    (hinit : s0.initialise bits ns = .ok s1) :
    |((s1.runState inputs).dither input).1 - (s1.runState inputs).shapedInputOf input|
      ≤ (s1.runState inputs).dWordLengthInverted / 2 := by
  obtain ⟨hpos, hmul⟩ := initialise_ok_wordLength s0 s1 bits ns hinit
  obtain ⟨hW, hWi⟩ := runState_preserves_wordLength s1 inputs
  exact quantize_error_bound _ input (hW ▸ hpos) (by rw [hW, hWi]; exact hmul)

/-- Witness for C2 on a one bit engine with no preceding samples and the
input zero. -/
theorem process_error_bound_witness :
    |((ditherOneBit.runState []).dither 0).1 - (ditherOneBit.runState []).shapedInputOf 0|
      ≤ (ditherOneBit.runState []).dWordLengthInverted / 2 :=
  process_error_bound ditherZero ditherOneBit 1 (1 / 2) [] 0
    (by simp [Dither.initialise, ditherZero, ditherOneBit, lcgModulus]; norm_num)

/-- Helper: with noise shaping disabled, the output of a single process
call does not depend on the error feedback history. -/
theorem dither_fst_feedback_free (s t : Dither) (x : ℚ)
    (h0 : s.dNoiseShaping = 0) (hagree : s.agreeExceptFeedback t) :
    (s.dither x).1 = (t.dither x).1 := by
  obtain ⟨h1, h2, h3, h4, h5, h6, h7⟩ := hagree
  have h0t : t.dNoiseShaping = 0 := h5 ▸ h0
  have hs : s.shapedInputOf x = t.shapedInputOf x := by
    unfold Dither.shapedInputOf Dither.noiseShapedOf Dither.tpdfDeviate
    rw [h0, h0t, h1, h2, h3, h4]
    ring
  show (round (s.shapedInputOf x * s.dWordLength) : ℚ) * s.dWordLengthInverted =
    (round (t.shapedInputOf x * t.dWordLength) : ℚ) * t.dWordLengthInverted
  rw [hs, h6, h7]

/-- Helper: with noise shaping disabled and the RNG reseeded identically
before each call, processing a list is a plain map of a per-sample
function of the configuration. -/
theorem runReseeded_map (s t : Dither) (seed1 seed2 : Int) (l : List ℚ)
    (h0 : s.dNoiseShaping = 0) (hcfg : s.sameNoiseConfig t) :
    t.runReseeded seed1 seed2 l =
      l.map (fun x => ((s.reseed seed1 seed2).dither x).1) := by
  induction l generalizing t with
  | nil => rfl
  | cons x xs ih =>
    obtain ⟨c1, c2, c3, c4, c5⟩ := hcfg
    have hhead : ((t.reseed seed1 seed2).dither x).1 =
        ((s.reseed seed1 seed2).dither x).1 :=
      (dither_fst_feedback_free (s.reseed seed1 seed2) (t.reseed seed1 seed2) x h0
        ⟨rfl, rfl, c1, c2, c3, c4, c5⟩).symm
    have htail := ih ((t.reseed seed1 seed2).dither x).2 ⟨c1, c2, c3, c4, c5⟩
    show ((t.reseed seed1 seed2).dither x).1 ::
        ((t.reseed seed1 seed2).dither x).2.runReseeded seed1 seed2 xs = _
    rw [hhead, htail]
    rfl

/-- C4: with noise shaping disabled the process output on a sample is
independent of the error feedback history left by prior calls, and when
the RNG is reseeded identically before each call, permuting the input
sequence permutes the output sequence the same way. -/
theorem noShaping_independent (s t u : Dither) (x : ℚ) (seed1 seed2 : Int)
    (l1 l2 : List ℚ)
    (h0 : s.dNoiseShaping = 0) (hagree : s.agreeExceptFeedback t)
    (hu : u.dNoiseShaping = 0) (hperm : l1.Perm l2) :
    (s.dither x).1 = (t.dither x).1 ∧
    (u.runReseeded seed1 seed2 l1).Perm (u.runReseeded seed1 seed2 l2) := by
  constructor
  · exact dither_fst_feedback_free s t x h0 hagree
  · rw [runReseeded_map u u seed1 seed2 l1 hu ⟨rfl, rfl, rfl, rfl, rfl⟩,
        runReseeded_map u u seed1 seed2 l2 hu ⟨rfl, rfl, rfl, rfl, rfl⟩]
    exact hperm.map _

/-- Witness for C4: two one bit engines without shaping that differ only
in feedback history agree on the input zero, and a two sample swap
permutes the reseeded outputs. -/
theorem noShaping_independent_witness :
    (ditherNoShaping.dither 0).1 = (ditherNoShapingFb.dither 0).1 ∧
    (ditherNoShaping.runReseeded 1 2 [0, 1 / 2]).Perm
      (ditherNoShaping.runReseeded 1 2 [1 / 2, 0]) :=
  noShaping_independent ditherNoShaping ditherNoShapingFb ditherNoShaping 0 1 2
    [0, 1 / 2] [1 / 2, 0] rfl ⟨rfl, rfl, rfl, rfl, rfl, rfl, rfl⟩ rfl
    (List.Perm.swap (1 / 2) 0 [])

/-- C7: the brightness and peak marker state left by setLevels is a
function of the four level arguments and the threshold fields only; two
segments with equal thresholds but arbitrary different prior brightness
and marker state end up identical. -/
theorem setLevels_thresholds_only (s t : GenericMeterSegment)
    (nl dl nlp dlp : ℚ)
    (hl : s.lowerThreshold = t.lowerThreshold)
    (hr : s.thresholdRange = t.thresholdRange)
    (hu : s.upperThreshold = t.upperThreshold)
    (hh : s.hasHighestLevel = t.hasHighestLevel) :
    (s.setLevels nl dl nlp dlp).fBrightness = (t.setLevels nl dl nlp dlp).fBrightness ∧
    (s.setLevels nl dl nlp dlp).fBrightnessOutline =
      (t.setLevels nl dl nlp dlp).fBrightnessOutline ∧
    (s.setLevels nl dl nlp dlp).lightPeakMarker =
      (t.setLevels nl dl nlp dlp).lightPeakMarker := by
  simp [GenericMeterSegment.setLevels, hl, hr, hu, hh]

/-- Witness for C7: two segments with thresholds 0 and 1 but different
brightness and marker state agree after the same setLevels call. -/
theorem setLevels_thresholds_only_witness :
    (segA.setLevels (1 / 2) (-144) (-144) (-144)).fBrightness =
      (segB.setLevels (1 / 2) (-144) (-144) (-144)).fBrightness ∧
    (segA.setLevels (1 / 2) (-144) (-144) (-144)).fBrightnessOutline =
      (segB.setLevels (1 / 2) (-144) (-144) (-144)).fBrightnessOutline ∧
    (segA.setLevels (1 / 2) (-144) (-144) (-144)).lightPeakMarker =
      (segB.setLevels (1 / 2) (-144) (-144) (-144)).lightPeakMarker :=
  setLevels_thresholds_only segA segB (1 / 2) (-144) (-144) (-144) rfl rfl rfl rfl

/-- Helper: every state reachable through the public interface keeps the
upper threshold equal to the lower threshold plus the range, because the
constructor and setThresholds establish it and the level setters never
touch the thresholds. -/
theorem reachable_upper_eq (s : GenericMeterSegment) (h : s.Reachable) :
    s.upperThreshold = s.lowerThreshold + s.thresholdRange := by
  induction h with
  | construct l r b => rfl
  | setThresholds s l r b _ _ => rfl
  | setLevels s a b c d _ ih => exact ih
  | setNormalLevels s a b _ ih => exact ih
  | setDiscreteLevels s a b _ ih => exact ih

/-- C9: on every reachable segment with a positive threshold range, every
setLevels call leaves the fill brightness in the closed interval from
0.25 to 0.97 and the outline brightness in the closed interval from 0.30
to 0.90. -/
theorem setLevels_brightness_bounded (s : GenericMeterSegment)
    (nl dl nlp dlp : ℚ) (hreach : s.Reachable) (hrange : 0 < s.thresholdRange) :
    25 / 100 ≤ (s.setLevels nl dl nlp dlp).fBrightness ∧
    (s.setLevels nl dl nlp dlp).fBrightness ≤ 97 / 100 ∧
    30 / 100 ≤ (s.setLevels nl dl nlp dlp).fBrightnessOutline ∧
    (s.setLevels nl dl nlp dlp).fBrightnessOutline ≤ 90 / 100 := by
  have hupper := reachable_upper_eq s hreach
  unfold GenericMeterSegment.setLevels
  dsimp only
  split_ifs with h1 h2 h3
  · norm_num
  · norm_num
  · norm_num
  · have hge : s.lowerThreshold ≤ nl := not_lt.mp h3
    have hlt : nl < s.upperThreshold := not_le.mp h1
    rw [hupper] at hlt
    have hnum0 : 0 ≤ nl - s.lowerThreshold := by linarith
    have hnum1 : nl - s.lowerThreshold < s.thresholdRange := by linarith
    have hraw0 : 0 ≤ (nl - s.lowerThreshold) / s.thresholdRange :=
      div_nonneg hnum0 hrange.le
    have hraw1 : (nl - s.lowerThreshold) / s.thresholdRange < 1 :=
      (div_lt_one hrange).mpr hnum1
    refine ⟨by nlinarith, by nlinarith, by nlinarith, by nlinarith⟩

/-- Witness for C9 on a freshly constructed segment with thresholds 0 and
1 and the level one half. -/
theorem setLevels_brightness_bounded_witness :
    25 / 100 ≤ ((GenericMeterSegment.construct 0 1 false).setLevels
      (1 / 2) (-144) (-144) (-144)).fBrightness ∧
    ((GenericMeterSegment.construct 0 1 false).setLevels
      (1 / 2) (-144) (-144) (-144)).fBrightness ≤ 97 / 100 ∧
    30 / 100 ≤ ((GenericMeterSegment.construct 0 1 false).setLevels
      (1 / 2) (-144) (-144) (-144)).fBrightnessOutline ∧
    ((GenericMeterSegment.construct 0 1 false).setLevels
      (1 / 2) (-144) (-144) (-144)).fBrightnessOutline ≤ 90 / 100 :=
  setLevels_brightness_bounded (GenericMeterSegment.construct 0 1 false)
    (1 / 2) (-144) (-144) (-144) (GenericMeterSegment.Reachable.construct 0 1 false)
    (by norm_num [GenericMeterSegment.construct, GenericMeterSegment.setThresholds,
      GenericMeterSegment.setLevels])

end TraKmeter
